import Mathlib

/-!
Verification of the GenoPilot phenotype-classification core (`app/routes.py`).

The Python classifiers are shallowly embedded as Lean functions over `List Char`
based models of the Python string primitives (`str.split`, `str.strip`,
`str.lower`, substring containment, lexicographic comparison, the three
`re.sub` cleanups used by `rtext_short`).  The JSON reference tables
(`markers.json`, `cyp2d6_pheno.json`, `recs.json`) are not part of the source
tree, so every function takes the relevant table as an explicit parameter.
Functions whose Python original can raise (`cyp2d6_from_markers`,
`cyp2d6_from_stars`, `_cyp_lookup_pheno`) return an `Option`, with `none`
modelling an uncaught exception.  Activity scores (floats 0.0 / 0.5 / 1.0 with
thresholds 1.0 and 2.25, all exactly representable) are modelled in quarter
units as naturals: 0, 2, 4 with thresholds 4 and 9.
-/

/-- Python whitespace class for `str.split()` / `str.strip()` (ASCII part). -/
def pyIsWs (c : Char) : Bool :=
  c = ' ' || c = '\t' || c = '\n' || c = '\r' || c = '\x0b' || c = '\x0c'

/-- ASCII lower-casing of one character, as Python `str.lower` does on ASCII. -/
def charLower (c : Char) : Char :=
  if 'A' ≤ c ∧ c ≤ 'Z' then Char.ofNat (c.toNat + 32) else c

/-- Model of Python `s.lower()` (ASCII letters; all table keys are covered). -/
def pyLower (s : String) : String := ⟨s.data.map charLower⟩

/-- Model of Python `s.split(sep)` for a one-character separator:
no run collapsing, empty pieces kept, `"".split(sep) == [""]`. -/
def splitOnChar (sep : Char) : List Char → List (List Char)
  | [] => [[]]
  | c :: cs =>
    let r := splitOnChar sep cs
    if c = sep then [] :: r
    else
      match r with
      | [] => [[c]]
      | h :: t => (c :: h) :: t

/-- Python `dipl.split("/")`. -/
def pySplitSlash (s : String) : List String :=
  (splitOnChar '/' s.data).map (fun l => ⟨l⟩)

/-- Accumulator loop behind `pySplitWs`. -/
def splitWsGo (cur : List Char) : List Char → List (List Char)
  | [] => if cur.isEmpty then [] else [cur.reverse]
  | c :: cs =>
    if pyIsWs c then (if cur.isEmpty then [] else [cur.reverse]) ++ splitWsGo [] cs
    else splitWsGo (c :: cur) cs

/-- Model of Python `s.split()` with no argument: split on whitespace runs,
no empty tokens; `"".split() == []`. -/
def pySplitWs (s : String) : List String := (splitWsGo [] s.data).map (fun l => ⟨l⟩)

/-- Model of Python `s.strip()`: drop leading and trailing whitespace. -/
def pyStrip (s : String) : String :=
  ⟨((s.data.dropWhile pyIsWs).reverse.dropWhile pyIsWs).reverse⟩

/-- Boolean list-level test that the first list starts the second one. -/
def leadMatch : List Char → List Char → Bool
  | [], _ => true
  | _ :: _, [] => false
  | a :: as, b :: bs => a = b && leadMatch as bs

/-- Boolean contiguous-subsequence test on character lists. -/
def containsSeq (needle : List Char) : List Char → Bool
  | [] => needle.isEmpty
  | c :: t => leadMatch needle (c :: t) || containsSeq needle t

/-- Model of Python `needle in hay` on strings (substring containment). -/
def pyIn (needle hay : String) : Bool := containsSeq needle.data hay.data

/-- Model of Python `s.startswith(pre)`. -/
def pyStartsWith (s pre : String) : Bool := leadMatch pre.data s.data

/-- Strict lexicographic comparison of character lists by code point,
as Python compares strings. -/
def charListLt : List Char → List Char → Bool
  | [], [] => false
  | [], _ :: _ => true
  | _ :: _, [] => false
  | a :: as, b :: bs => if a < b then true else if b < a then false else charListLt as bs

/-- Model of Python `a < b` on strings. -/
def pyLt (a b : String) : Bool := charListLt a.data b.data

/-- Model of Python `a <= b` on strings. -/
def pyLe (a b : String) : Bool := !(pyLt b a)

/-- Model of Python `values.get(k, d)` on a string-keyed mapping, the mapping
being represented as an association list with distinct keys. -/
def dictGet (values : List (String × String)) (k d : String) : String :=
  match values.find? (fun kv => kv.1 == k) with
  | some kv => kv.2
  | none => d

/-- Scan for the `]` closing a bracketed segment: `re` non-greedy `\[.*?\]`
matching takes the first `]`, and `.` cannot cross a newline.  Returns the
suffix after the closing bracket when the match succeeds. -/
def bracketClose : List Char → Option (List Char)
  | [] => none
  | c :: cs => if c = ']' then some cs else if c = '\n' then none else bracketClose cs

/-- Fuelled loop of `re.sub(r"\[.*?\]", "", t)`: each step consumes at least
one character, so fuel equal to the input length is exact. -/
def stripBracketsF : Nat → List Char → List Char
  | 0, l => l
  | _ + 1, [] => []
  | n + 1, c :: cs =>
    if c = '[' then
      match bracketClose cs with
      | some rest => stripBracketsF n rest
      | none => c :: stripBracketsF n cs
    else c :: stripBracketsF n cs

/-- Model of Python `re.sub(r"\[.*?\]", "", t)`. -/
def stripBrackets (l : List Char) : List Char := stripBracketsF l.length l

/-- Match the regex prefix `https?://` at the head of the list, returning the
suffix after it. -/
def dropHttpHead : List Char → Option (List Char)
  | 'h' :: 't' :: 't' :: 'p' :: rest =>
    match rest with
    | 's' :: ':' :: '/' :: '/' :: r => some r
    | ':' :: '/' :: '/' :: r => some r
    | _ => none
  | _ => none

/-- Match `https?://\S+` at the head of the list (greedy run of at least one
non-whitespace character), returning the suffix after the match. -/
def matchUrl (l : List Char) : Option (List Char) :=
  match dropHttpHead l with
  | none => none
  | some [] => none
  | some (c :: r) =>
    if pyIsWs c then none else some (r.dropWhile (fun d => !pyIsWs d))

/-- Fuelled loop of `re.sub(r"https?://\S+", "", t)`. -/
def stripUrlsF : Nat → List Char → List Char
  | 0, l => l
  | _ + 1, [] => []
  | n + 1, c :: cs =>
    match matchUrl (c :: cs) with
    | some rest => stripUrlsF n rest
    | none => c :: stripUrlsF n cs

/-- Model of Python `re.sub(r"https?://\S+", "", t)`. -/
def stripUrls (l : List Char) : List Char := stripUrlsF l.length l

/-- Collapse consecutive spaces; applied after every whitespace character has
been mapped to `' '`, it realises `re.sub(r"\s+", " ", t)`. -/
def squeeze : List Char → List Char
  | [] => []
  | [c] => [c]
  | a :: b :: rest =>
    if a = ' ' && b = ' ' then squeeze (b :: rest) else a :: squeeze (b :: rest)

/-- The cleanup pipeline of `rtext_short`: strip `[...]` citation markers,
strip `http(s)://` URLs, collapse whitespace runs to single spaces, trim. -/
def cleanText (s : String) : String :=
  pyStrip ⟨squeeze ((stripUrls (stripBrackets s.data)).map
    (fun c => if pyIsWs c then ' ' else c))⟩

/-- One row of `markers.json` for a gene (schema of §3 of the design). -/
structure Marker where
  column : String
  rsid : String
  ref : String
  var : String
  star : String
  options : List String

/-- One row of `cyp2d6_pheno.json`: keys `"CYP2D6 Diplotype"` and
`"Coded Diplotype/Phenotype Summary"`. -/
structure CypRow where
  diplotype : String
  summary : String
deriving DecidableEq

/-- One row of `recs.json` (keys `Gene`, `Phenotype`, `RecText`; `RecText`
may be absent, which `routes.py` reads with `.get`). -/
structure RecRow where
  gene : String
  phenotype : String
  recText : Option String

/-- The fixed short-recommendation table of `rtext_short`, keyed by
`(gene, lower-cased phenotype)`. -/
def SHORT_REC : List ((String × String) × String) :=
  [(("DPYD", "metabolizador normal"), "Dosis estándar según ficha técnica."),
   (("DPYD", "metabolizador intermedio"), "Reducir dosis inicial; titular y monitorizar."),
   (("DPYD", "metabolizador lento"), "Evitar fluoropirimidinas; valorar alternativas."),
   (("UGT1A1", "metabolizador normal"), "Dosis estándar según ficha técnica."),
   (("UGT1A1", "metabolizador intermedio"), "Considerar reducción dosis; monitorizar neutropenia."),
   (("UGT1A1", "metabolizador lento"), "Reducir dosis inicial (30–50%); monitorización estrecha."),
   (("CYP2D6", "metabolizador normal"), "Dosis estándar."),
   (("CYP2D6", "metabolizador intermedio"), "Considerar terapia hormonal alternativa."),
   (("CYP2D6", "metabolizador pobre"), "Evitar tamoxifeno; alternativa terapéutica."),
   (("CYP2D6", "metabolizador ultrarrápido"), "Valorar alternativas según contexto.")]

/-- The fixed safe-fallback sentence returned when no short entry matches and
the cleaned long text is empty. -/
def SAFE_FALLBACK : String :=
  "No hay recomendación específica en las guías cargadas para este fenotipo/diplotipo. Seguir ficha técnica y monitorizar estrechamente."

/-- `rtext_short(gene, pheno, long_text)` of `routes.py`; `long_text` is
`Option String` because callers pass `(rec_row or {}).get("RecText")`, which
may be `None` (handled by `long_text or ""`). -/
def rtext_short (gene pheno : String) (longText : Option String) : String :=
  match SHORT_REC.find? (fun e => e.1.1 == gene && e.1.2 == pyLower pheno) with
  | some e => e.2
  | none =>
    let t := cleanText (longText.getD "")
    if t = "" then SAFE_FALLBACK else t

/-- The sort key of `_collect_stars`: `x.replace("*", "0")`, which replaces
every occurrence of `"*"` (a single character) by `"0"`. -/
def starKey (x : String) : String := ⟨x.data.map (fun c => if c = '*' then '0' else c)⟩

/-- Boolean form of the `sorted(..., key=lambda x: (x.replace("*","0"), x))`
order: lexicographic on the pair (replaced key, raw label). -/
def starOrdB (a b : String) : Bool :=
  pyLt (starKey a) (starKey b) || (starKey a == starKey b && pyLe a b)

/-- The sort order used by `_collect_stars` as a proposition. -/
def starOrd (a b : String) : Prop := starOrdB a b = true

instance : DecidableRel starOrd := fun a b => inferInstanceAs (Decidable (starOrdB a b = true))

/-- Insertion into a Python `set` modelled as a duplicate-free list (insertion
order is irrelevant to `_collect_stars`, whose sort key is injective). -/
def setInsert (s : List String) (x : String) : List String :=
  if x ∈ s then s else s ++ [x]

/-- `_collect_stars(gene, extra)` of `routes.py`, with `MARKERS.get(gene, [])`
passed in as the marker row list.  Starts from `{"*1"}`, adds the first
whitespace token of each non-empty, non-`"-"` stripped star field, unions in
`extra`, and sorts by `(x.replace("*","0"), x)`. -/
def collect_stars (ms : List Marker) (extra : List String) : List String :=
  let base := ms.foldl
    (fun acc m =>
      let s := pyStrip m.star
      if s = "" ∨ s = "-" then acc
      else setInsert acc ((pySplitWs s).headD "")) ["*1"]
  List.insertionSort starOrd (extra.foldl setInsert base)

/-- First token of the `var` field: `re.split(r"[\/,\s]+", var)[0] if var
else ""`, i.e. the prefix of `var` before the first `/`, `,` or whitespace. -/
def firstVarToken (var : String) : String :=
  ⟨var.data.takeWhile (fun c => !(c = '/' || c = ',' || pyIsWs c))⟩

/-- Per-marker star-allele events of the DPYD marker loop: one event for a
heterozygous `ref/alt` or `alt/ref` genotype, two for homozygous `alt/alt`,
none otherwise or when the marker has no usable variant token. -/
def dpydContribution (values : List (String × String)) (m : Marker) : List String :=
  let geno := dictGet values m.column "-/-"
  let alt := firstVarToken m.var
  if alt ≠ "" ∧ alt ≠ "-" then
    if geno = m.ref ++ "/" ++ alt ∨ geno = alt ++ "/" ++ m.ref then [m.star]
    else if geno = alt ++ "/" ++ alt then [m.star, m.star]
    else []
  else []

/-- The `stars_list` accumulated by the DPYD marker loop, in marker-table
order (imperative append loop, hence a left fold). -/
def dpydStars (values : List (String × String)) (ms : List Marker) : List String :=
  ms.foldl (fun acc m => acc ++ dpydContribution values m) []

/-- The annotation notes built alongside the marker loops:
`"<column> (<rsid>): <observed genotype>"`, one per marker. -/
def polymNotes (values : List (String × String)) (ms : List Marker) : List String :=
  ms.map (fun m => m.column ++ " (" ++ m.rsid ++ "): " ++ dictGet values m.column "-/-")

/-- The DPYD recommendation-row search of `routes.py`:
first row with `Gene == "DPYD"` and `Phenotype.lower() in pheno.lower()`. -/
def dpydRecRow (recs : List RecRow) (pheno : String) : Option RecRow :=
  recs.find? (fun r => r.gene == "DPYD" && pyIn (pyLower r.phenotype) (pyLower pheno))

/-- `dpyd_from_markers(values)` of `routes.py` (with `MARKERS["DPYD"]` and
`RECS` passed in): returns (diplotype, phenotype, recommendation, notes). -/
def dpyd_from_markers (recs : List RecRow) (ms : List Marker)
    (values : List (String × String)) : String × String × String × List String :=
  let stars_list := dpydStars values ms
  let dp : String × String :=
    match stars_list with
    | [] => ("*1/*1", "Metabolizador normal")
    | [s] => ("*1/" ++ s, "Metabolizador intermedio")
    | s1 :: s2 :: _ => (s1 ++ "/" ++ s2, "Metabolizador lento")
  (dp.1, dp.2,
   rtext_short "DPYD" dp.2 ((dpydRecRow recs dp.2).bind RecRow.recText),
   polymNotes values ms)

/-- `dpyd_from_diplotype(a1, a2)` of `routes.py`: counts alleles differing
from `"*1"`; diplotype is the literal `a1/a2`, order preserved. -/
def dpyd_from_diplotype (recs : List RecRow) (a1 a2 : String) :
    String × String × String × List String :=
  let non1 := (if a1 ≠ "*1" then 1 else 0) + (if a2 ≠ "*1" then 1 else 0)
  let pheno : String :=
    if non1 = 0 then "Metabolizador normal"
    else if non1 = 1 then "Metabolizador intermedio"
    else "Metabolizador lento"
  let dipl := a1 ++ "/" ++ a2
  (dipl, pheno,
   rtext_short "DPYD" pheno ((dpydRecRow recs pheno).bind RecRow.recText),
   ["DPYD diplotipo manual: " ++ dipl])

/-- The UGT1A1 recommendation-row search of `routes.py`. -/
def ugtRecRow (recs : List RecRow) (pheno : String) : Option RecRow :=
  recs.find? (fun r => r.gene == "UGT1A1" && pyIn (pyLower r.phenotype) (pyLower pheno))

/-- `ugt1a1_from_markers(geno)` of `routes.py`: single tag-SNP rule on
rs887829. -/
def ugt1a1_from_markers (recs : List RecRow) (geno : String) :
    String × String × String × List String :=
  let polym := ["UGT1A1*80 (rs887829): " ++ geno]
  let dp : String × String :=
    if geno = "C/C" then ("*1/*1", "Metabolizador normal")
    else if geno = "C/T" ∨ geno = "T/C" then ("*1/*28", "Metabolizador intermedio")
    else if geno = "T/T" then ("*28/*28", "Metabolizador lento")
    else ("-/-", "Indeterminado")
  (dp.1, dp.2,
   rtext_short "UGT1A1" dp.2 ((ugtRecRow recs dp.2).bind RecRow.recText),
   polym)

/-- The decreased-function allele set of `ugt1a1_from_diplotype`. -/
def UGT_DECREASED : List String := ["*28", "*80", "*6", "*37"]

/-- Python `sorted([a1, a2])` on two strings: swap iff the second compares
strictly below the first. -/
def sortedPair (a1 a2 : String) : List String :=
  if pyLt a2 a1 then [a2, a1] else [a1, a2]

/-- `ugt1a1_from_diplotype(a1, a2)` of `routes.py`: displayed diplotype is the
pair joined with `"/"` in sorted order; phenotype counts decreased-function
alleles. -/
def ugt1a1_from_diplotype (recs : List RecRow) (a1 a2 : String) :
    String × String × String × List String :=
  let pair := String.intercalate "/" (sortedPair a1 a2)
  let count := (if a1 ∈ UGT_DECREASED then 1 else 0) + (if a2 ∈ UGT_DECREASED then 1 else 0)
  let pheno : String :=
    if count = 0 then "Metabolizador normal"
    else if count = 1 then "Metabolizador intermedio"
    else "Metabolizador lento"
  (pair, pheno,
   rtext_short "UGT1A1" pheno ((ugtRecRow recs pheno).bind RecRow.recText),
   ["UGT1A1 diplotipo manual: " ++ pair])

/-- The no-function allele set of the CYP2D6 activity-score heuristic. -/
def CYP_LOSS : List String := ["*3", "*4", "*5", "*6", "*7", "*14", "*15", "*19", "*59"]

/-- The reduced-function allele set of the CYP2D6 activity-score heuristic. -/
def CYP_REDUCED : List String := ["*10", "*17", "*29", "*41", "*56B"]

/-- `ascore(star)` in quarter units: 0.0 → 0, 0.5 → 2, 1.0 → 4 (all the float
values and thresholds of the source are quarter multiples, so this scaling is
exact). -/
def ascoreQ (star : String) : Nat :=
  if star ∈ CYP_LOSS then 0 else if star ∈ CYP_REDUCED then 2 else 4

/-- `_cyp_lookup_pheno(dipl)` of `routes.py` (with `CYP_PHENO` passed in):
exact table lookup, else the activity-score heuristic with thresholds
1.0 (= 4 quarters) and 2.25 (= 9 quarters).  `none` models the `ValueError`
raised when `dipl.split("/")` does not have exactly two parts. -/
def cyp_lookup_pheno (tbl : List CypRow) (dipl : String) : Option String :=
  match tbl.find? (fun r => r.diplotype == dipl) with
  | some row => some row.summary
  | none =>
    match pySplitSlash dipl with
    | [a1, a2] =>
      let s := ascoreQ a1 + ascoreQ a2
      some (if s = 0 then "Poor Metabolizer"
            else if s ≤ 4 then "Intermediate Metabolizer"
            else if s ≤ 9 then "Normal Metabolizer"
            else "Ultrarapid Metabolizer")
    | _ => none

/-- The English-to-Spanish prefix conversion table applied to the CYP2D6
phenotype, in source (insertion) order. -/
def CYP_CONV : List (String × String) :=
  [("Normal", "Metabolizador normal"),
   ("Intermediate", "Metabolizador intermedio"),
   ("Poor", "Metabolizador pobre"),
   ("Ultrarapid", "Metabolizador ultrarrápido")]

/-- The `for k, v in conv.items(): if pheno.startswith(k): pheno = v` loop:
a left fold in which later iterations see the reassigned value. -/
def cypTranslate (pheno : String) : String :=
  CYP_CONV.foldl (fun p kv => if pyStartsWith p kv.1 then kv.2 else p) pheno

/-- The phenotype part of the CYP2D6 recommendation-row predicate:
`(pheno.split()[1] in r["Phenotype"]) if " " in pheno else (pheno in
r["Phenotype"])`; `none` models the `IndexError` when `pheno` contains a
space but `pheno.split()` has fewer than two tokens. -/
def cypRecPred (pheno : String) (r : RecRow) : Option Bool :=
  if pyIn " " pheno then ((pySplitWs pheno)[1]?).map (fun w => pyIn w r.phenotype)
  else some (pyIn pheno r.phenotype)

/-- Python `next((x for x in l if p(x)), None)` where evaluating the predicate
may itself raise: the outer `none` is a raised exception, the inner `Option`
is the found-or-`None` result. -/
def pyFind? {α : Type} (p : α → Option Bool) : List α → Option (Option α)
  | [] => some none
  | x :: xs =>
    match p x with
    | none => none
    | some true => some (some x)
    | some false => pyFind? p xs

/-- The CYP2D6 recommendation-row search (the `r["Gene"] == "CYP2D6"`
conjunct short-circuits, so the fragile phenotype test only runs on CYP2D6
rows). -/
def cypRecRowSearch (recs : List RecRow) (pheno : String) : Option (Option RecRow) :=
  pyFind? (fun r => if r.gene == "CYP2D6" then cypRecPred pheno r else some false) recs

/-- `cyp2d6_from_stars(a1, a2)` of `routes.py` (tables passed in); `none`
models an uncaught exception. -/
def cyp2d6_from_stars (tbl : List CypRow) (recs : List RecRow) (a1 a2 : String) :
    Option (String × String × String × List String) :=
  let dipl := a1 ++ "/" ++ a2
  match cyp_lookup_pheno tbl dipl with
  | none => none
  | some ph =>
    let pheno := cypTranslate ph
    match cypRecRowSearch recs pheno with
    | none => none
    | some rrow =>
      some (dipl, pheno,
        rtext_short "CYP2D6" pheno (some ((rrow.bind RecRow.recText).getD "")),
        ["CYP2D6 diplotipo manual: " ++ dipl])

/-- The CYP2D6 marker loop.  The source computes
`star = str(m["star"]).split()[0]` in the same statement that reads the other
fields, before the `if not star or star == "-": continue` guard can run, so an
empty or whitespace-only star field raises `IndexError` (modelled by `none`);
the guard itself is kept as in the source. -/
def cypHitsPolym (values : List (String × String)) :
    List Marker → Option (List String × List String)
  | [] => some ([], [])
  | m :: ms =>
    match (pySplitWs m.star).head? with
    | none => none
    | some star =>
      let geno := dictGet values m.column "-/-"
      let note := m.column ++ " (" ++ m.rsid ++ "): " ++ geno
      let alt := firstVarToken m.var
      let contrib :=
        if star = "" ∨ star = "-" then []
        else if alt ≠ "" ∧ alt ≠ "-" then
          if geno = m.ref ++ "/" ++ alt ∨ geno = alt ++ "/" ++ m.ref then [star]
          else if geno = alt ++ "/" ++ alt then [star, star]
          else []
        else []
      match cypHitsPolym values ms with
      | none => none
      | some (hits, polym) => some (contrib ++ hits, note :: polym)

/-- `cyp2d6_from_markers(values)` of `routes.py` (tables passed in); `none`
models an uncaught exception. -/
def cyp2d6_from_markers (tbl : List CypRow) (recs : List RecRow) (ms : List Marker)
    (values : List (String × String)) : Option (String × String × String × List String) :=
  match cypHitsPolym values ms with
  | none => none
  | some (hits, polym) =>
    let dipl : String :=
      match hits with
      | [] => "*1/*1"
      | [h] => "*1/" ++ h
      | h1 :: h2 :: _ => h1 ++ "/" ++ h2
    match cyp_lookup_pheno tbl dipl with
    | none => none
    | some ph =>
      let pheno := cypTranslate ph
      match cypRecRowSearch recs pheno with
      | none => none
      | some rrow =>
        some (dipl, pheno,
          rtext_short "CYP2D6" pheno (some ((rrow.bind RecRow.recText).getD "")),
          polym)

/-- Claim-side description (C1 wording) of the DPYD star-allele event list:
the per-marker contributions concatenated in marker-table order. -/
def dpydOccurrencesSpec (values : List (String × String)) : List Marker → List String
  | [] => []
  | m :: ms => dpydContribution values m ++ dpydOccurrencesSpec values ms

/-- Claim-side activity score (C2 wording), quarter units. -/
def claimScore (a : String) : Nat :=
  if a ∈ (["*3", "*4", "*5", "*6", "*7", "*14", "*15", "*19", "*59"] : List String) then 0
  else if a ∈ (["*10", "*17", "*29", "*41", "*56B"] : List String) then 2
  else 4

/-- Claim-side score-to-phenotype thresholds (C2 wording): total 0 → Poor,
0 < total ≤ 1.0 → Intermediate, 1.0 < total ≤ 2.25 → Normal,
total > 2.25 → Ultrarapid (quarter units). -/
def claimBucket (s : Nat) : String :=
  if s = 0 then "Poor Metabolizer"
  else if s ≤ 4 then "Intermediate Metabolizer"
  else if s ≤ 9 then "Normal Metabolizer"
  else "Ultrarapid Metabolizer"

/-- Claim-side sort key of C8's wording: replace only a LEADING `"*"` by
`"0"`, otherwise leave the label unchanged. -/
def leadingStarKey (x : String) : String :=
  match x.data with
  | '*' :: rest => ⟨'0' :: rest⟩
  | _ => x

/-- Claim-side order of C8's wording: lexicographic on
`(leadingStarKey x, x)`. -/
def leadingOrd (a b : String) : Prop :=
  (pyLt (leadingStarKey a) (leadingStarKey b)
    || (leadingStarKey a == leadingStarKey b && pyLe a b)) = true

instance : DecidableRel leadingOrd := fun a b =>
  inferInstanceAs (Decidable ((pyLt (leadingStarKey a) (leadingStarKey b)
    || (leadingStarKey a == leadingStarKey b && pyLe a b)) = true))

/-! ## Order lemmas for the Python string comparison model -/

theorem charListLt_irrefl : ∀ a, charListLt a a = false := by
  intro a
  induction a with
  | nil => rfl
  | cons x xs ih => simp [charListLt, ih]

theorem charListLt_cons_iff {x y : Char} {xs ys : List Char} :
    charListLt (x :: xs) (y :: ys) = true ↔ x < y ∨ (x = y ∧ charListLt xs ys = true) := by
  simp only [charListLt]
  split_ifs with h1 h2
  · simp [h1]
  · constructor
    · intro h; exact absurd h (by simp)
    · rintro (h | ⟨rfl, _⟩)
      · exact absurd h h1
      · exact absurd h2 (lt_irrefl _)
  · have hxy : x = y := le_antisymm (not_lt.mp h2) (not_lt.mp h1)
    simp [hxy, lt_irrefl]

theorem charListLt_trichot : ∀ a b, charListLt a b = true ∨ charListLt b a = true ∨ a = b := by
  intro a
  induction a with
  | nil =>
    intro b
    cases b with
    | nil => right; right; rfl
    | cons y ys => left; rfl
  | cons x xs ih =>
    intro b
    cases b with
    | nil => right; left; rfl
    | cons y ys =>
      rcases lt_trichotomy x y with h | h | h
      · left; simp [charListLt, h]
      · subst h
        rcases ih ys with h2 | h2 | h2
        · left; simp [charListLt, h2]
        · right; left; simp [charListLt, h2]
        · right; right; rw [h2]
      · right; left; simp [charListLt, h]

theorem charListLt_trans : ∀ a b c, charListLt a b = true → charListLt b c = true →
    charListLt a c = true := by
  intro a
  induction a with
  | nil =>
    intro b c hab hbc
    cases b with
    | nil => exact hbc
    | cons y ys =>
      cases c with
      | nil => simp [charListLt] at hbc
      | cons z zs => rfl
  | cons x xs ih =>
    intro b c hab hbc
    cases b with
    | nil => simp [charListLt] at hab
    | cons y ys =>
      cases c with
      | nil => simp [charListLt] at hbc
      | cons z zs =>
        rw [charListLt_cons_iff] at hab hbc ⊢
        rcases hab with h1 | ⟨rfl, h1⟩
        · rcases hbc with h2 | ⟨rfl, h2⟩
          · exact Or.inl (h1.trans h2)
          · exact Or.inl h1
        · rcases hbc with h2 | ⟨rfl, h2⟩
          · exact Or.inl h2
          · exact Or.inr ⟨rfl, ih ys zs h1 h2⟩

theorem charListLt_asymm {a b : List Char} (h : charListLt a b = true) :
    charListLt b a = false := by
  by_contra hc
  have h2 : charListLt b a = true := by
    cases hba : charListLt b a
    · exact absurd hba hc
    · rfl
  have := charListLt_trans a b a h h2
  rw [charListLt_irrefl] at this
  exact Bool.false_ne_true this

theorem string_eq_of_data_eq {a b : String} (h : a.data = b.data) : a = b := by
  cases a; cases b; exact congrArg String.mk h

theorem pyLt_asymm {a b : String} (h : pyLt a b = true) : pyLt b a = false :=
  charListLt_asymm h

theorem pyLt_trichot (a b : String) : pyLt a b = true ∨ pyLt b a = true ∨ a = b := by
  rcases charListLt_trichot a.data b.data with h | h | h
  · exact Or.inl h
  · exact Or.inr (Or.inl h)
  · exact Or.inr (Or.inr (string_eq_of_data_eq h))

theorem pyLe_total (a b : String) : pyLe a b = true ∨ pyLe b a = true := by
  rcases pyLt_trichot a b with h | h | h
  · left; simp [pyLe, pyLt_asymm h]
  · right; simp [pyLe, pyLt_asymm h]
  · subst h; left; simp [pyLe, pyLt, charListLt_irrefl]

theorem pyLe_trans {a b c : String} (h1 : pyLe a b = true) (h2 : pyLe b c = true) :
    pyLe a c = true := by
  simp only [pyLe, Bool.not_eq_true'] at h1 h2 ⊢
  by_contra hc
  have hca : pyLt c a = true := by
    cases h : pyLt c a
    · exact absurd h hc
    · rfl
  rcases pyLt_trichot c b with h3 | h3 | h3
  · simp [h3] at h2
  · have hba := charListLt_trans b.data c.data a.data h3 hca
    simp [pyLt] at h1
    simp [hba] at h1
  · subst h3
    simp [hca] at h1

/-! ## Set and fold helpers for `collect_stars` -/

theorem mem_setInsert {x : String} (s : List String) (y : String) (h : x ∈ s) :
    x ∈ setInsert s y := by
  unfold setInsert
  split_ifs
  · exact h
  · exact List.mem_append_left _ h

theorem mem_foldl_of_kept {β : Type} (f : List String → β → List String)
    (hf : ∀ acc y, ∀ x ∈ acc, x ∈ f acc y) {x : String} :
    ∀ (l : List β) (acc : List String), x ∈ acc → x ∈ l.foldl f acc := by
  intro l
  induction l with
  | nil => intro acc h; exact h
  | cons y ys ih => intro acc h; exact ih (f acc y) (hf acc y x h)

theorem total_of_starOrd : ∀ a b : String, starOrd a b ∨ starOrd b a := by
  intro a b
  rcases pyLt_trichot (starKey a) (starKey b) with h | h | h
  · left; simp [starOrd, starOrdB, h]
  · right; simp [starOrd, starOrdB, h]
  · rcases pyLe_total a b with h2 | h2
    · left; simp [starOrd, starOrdB, h, pyLt, charListLt_irrefl, h2]
    · right; simp [starOrd, starOrdB, h, pyLt, charListLt_irrefl, h2]

theorem trans_of_starOrd : ∀ a b c : String, starOrd a b → starOrd b c → starOrd a c := by
  intro a b c hab hbc
  simp only [starOrd, starOrdB, Bool.or_eq_true, Bool.and_eq_true, beq_iff_eq] at hab hbc ⊢
  rcases hab with h1 | ⟨e1, l1⟩
  · rcases hbc with h2 | ⟨e2, l2⟩
    · exact Or.inl (charListLt_trans _ _ _ h1 h2)
    · exact Or.inl (e2 ▸ h1)
  · rcases hbc with h2 | ⟨e2, l2⟩
    · exact Or.inl (e1 ▸ h2)
    · exact Or.inr ⟨e1.trans e2, pyLe_trans l1 l2⟩

/-- C8 (amended): `_collect_stars` returns a sequence sorted by the key
`(x.replace("*", "0"), x)` — the replacement applies to every `"*"` in the
label, not only a leading one — with the raw label as tie-break; on the
labels `*1`, `*2A`, `*13`, `HapB3` this produces the order
`*1`, `*13`, `*2A`, `HapB3` (character-wise, not numeric, so `*13` sorts
before `*2A`). -/
theorem collect_stars_sorted :
    (∀ (ms : List Marker) (extra : List String),
      List.Sorted starOrd (collect_stars ms extra)) ∧
    collect_stars [] ["*2A", "*13", "HapB3"] = ["*1", "*13", "*2A", "HapB3"] := by
  constructor
  · intro ms extra
    haveI : IsTotal String starOrd := ⟨total_of_starOrd⟩
    haveI : IsTrans String starOrd := ⟨trans_of_starOrd⟩
    exact List.sorted_insertionSort starOrd _
  · decide

/-- C8 (counterexample): the claim's leading-star-only key and its example
ordering both fail on the code.  With extras `*2A`, `*13`, `HapB3` the
returned order is `*1`, `*13`, `*2A`, `HapB3`, not the claimed
`*1`, `*2A`, `*13`, `HapB3`; and with extras `a*b`, `a+b` (an interior `*`)
the returned sequence is not sorted under the leading-star-only key. -/
theorem collect_stars_claim_cex :
    collect_stars [] ["*2A", "*13", "HapB3"] ≠ ["*1", "*2A", "*13", "HapB3"] ∧
    ¬ List.Pairwise leadingOrd (collect_stars [] ["a*b", "a+b"]) := by
  constructor
  · decide
  · decide

/-- C9: for every marker table (including an empty one) and every extras
argument, `_collect_stars` contains `"*1"` and returns at least one
element. -/
theorem collect_stars_contains_star1 (ms : List Marker) (extra : List String) :
    "*1" ∈ collect_stars ms extra ∧ 1 ≤ (collect_stars ms extra).length := by
  have hbase : "*1" ∈ ms.foldl
      (fun acc m =>
        let s := pyStrip m.star
        if s = "" ∨ s = "-" then acc
        else setInsert acc ((pySplitWs s).headD "")) ["*1"] := by
    apply mem_foldl_of_kept
    · intro acc y x hx
      simp only []
      split_ifs
      · exact hx
      · exact mem_setInsert _ _ hx
    · exact List.mem_singleton.mpr rfl
  have hext : "*1" ∈ (extra.foldl setInsert
      (ms.foldl
        (fun acc m =>
          let s := pyStrip m.star
          if s = "" ∨ s = "-" then acc
          else setInsert acc ((pySplitWs s).headD "")) ["*1"])) :=
    mem_foldl_of_kept setInsert (fun acc y x hx => mem_setInsert acc y hx) extra _ hbase
  have hmem : "*1" ∈ collect_stars ms extra := by
    unfold collect_stars
    exact ((List.perm_insertionSort starOrd _).mem_iff).mpr hext
  exact ⟨hmem, List.length_pos_of_mem hmem⟩

/-! ## DPYD lemmas -/

theorem dpydStars_foldl (values : List (String × String)) :
    ∀ (ms : List Marker) (acc : List String),
      ms.foldl (fun a m => a ++ dpydContribution values m) acc =
        acc ++ dpydOccurrencesSpec values ms := by
  intro ms
  induction ms with
  | nil => intro acc; simp [dpydOccurrencesSpec]
  | cons m rest ih => intro acc; simp [dpydOccurrencesSpec, ih]

theorem dpydStars_eq_occurrences (values : List (String × String)) (ms : List Marker) :
    dpydStars values ms = dpydOccurrencesSpec values ms := by
  unfold dpydStars
  rw [dpydStars_foldl]
  simp

theorem mem_dpydContribution {values : List (String × String)} {m : Marker} {s : String}
    (h : s ∈ dpydContribution values m) : s = m.star := by
  simp only [dpydContribution] at h
  split_ifs at h <;> simp at h <;> tauto

theorem mem_dpydOccurrences {values : List (String × String)} :
    ∀ {ms : List Marker} {s : String}, s ∈ dpydOccurrencesSpec values ms →
      ∃ m ∈ ms, s = m.star := by
  intro ms
  induction ms with
  | nil => intro s h; simp [dpydOccurrencesSpec] at h
  | cons m rest ih =>
    intro s h
    simp only [dpydOccurrencesSpec, List.mem_append] at h
    rcases h with h | h
    · exact ⟨m, List.mem_cons_self m rest, mem_dpydContribution h⟩
    · obtain ⟨m2, hm2, he⟩ := ih h
      exact ⟨m2, List.mem_cons_of_mem m hm2, he⟩

/-- C1: DPYD marker mode counts star-allele events per marker (ref/var or
var/ref adds one event for the marker's star allele, var/var adds two, any
other genotype — including the wild-type default used for absent columns — adds none,
and a marker with no usable variant token contributes nothing); zero events
give `*1/*1` and the normal phenotype, one event gives `*1/<star>` and the
intermediate phenotype, two or more give `<star0>/<star1>` from the first two
events in marker-table order (excess dropped) and the poor (lento)
phenotype. -/
theorem dpyd_from_markers_spec (recs : List RecRow) (ms : List Marker)
    (values : List (String × String)) :
    dpydStars values ms = dpydOccurrencesSpec values ms ∧
    (dpydStars values ms = [] →
      (dpyd_from_markers recs ms values).1 = "*1/*1" ∧
      (dpyd_from_markers recs ms values).2.1 = "Metabolizador normal") ∧
    (∀ s, dpydStars values ms = [s] →
      (dpyd_from_markers recs ms values).1 = "*1/" ++ s ∧
      (dpyd_from_markers recs ms values).2.1 = "Metabolizador intermedio") ∧
    (∀ s1 s2 t, dpydStars values ms = s1 :: s2 :: t →
      (dpyd_from_markers recs ms values).1 = s1 ++ "/" ++ s2 ∧
      (dpyd_from_markers recs ms values).2.1 = "Metabolizador lento") := by
  refine ⟨dpydStars_eq_occurrences values ms, ?_, ?_, ?_⟩
  · intro h
    simp [dpyd_from_markers, h]
  · intro s h
    simp [dpyd_from_markers, h]
  · intro s1 s2 t h
    simp [dpyd_from_markers, h]

/-- Witness for C1: one heterozygous DPYD marker yields `*1/*2A` and the
intermediate phenotype. -/
theorem dpyd_from_markers_spec_witness :
    (dpyd_from_markers [] [⟨"c", "rs1", "A", "T", "*2A", []⟩] [("c", "A/T")]).1 =
      "*1/" ++ "*2A" ∧
    (dpyd_from_markers [] [⟨"c", "rs1", "A", "T", "*2A", []⟩] [("c", "A/T")]).2.1 =
      "Metabolizador intermedio" :=
  (dpyd_from_markers_spec [] [⟨"c", "rs1", "A", "T", "*2A", []⟩]
    [("c", "A/T")]).2.2.1 "*2A" (by decide)

/-- C6: DPYD round trip — whenever marker mode returns diplotype `a1/a2` and
phenotype `p`, diplotype mode on `(a1, a2)` returns the same phenotype `p`
(stated for marker tables whose star fields differ from `"*1"`, which the
design assumes: every marker defines a non-`*1` variant allele). -/
theorem dpyd_round_trip (recs : List RecRow) (ms : List Marker)
    (values : List (String × String)) (hstar : ∀ m ∈ ms, m.star ≠ "*1") :
    (dpydStars values ms = [] →
      (dpyd_from_markers recs ms values).1 = "*1" ++ "/" ++ "*1" ∧
      (dpyd_from_diplotype recs "*1" "*1").2.1 = (dpyd_from_markers recs ms values).2.1) ∧
    (∀ s, dpydStars values ms = [s] →
      (dpyd_from_markers recs ms values).1 = "*1" ++ "/" ++ s ∧
      (dpyd_from_diplotype recs "*1" s).2.1 = (dpyd_from_markers recs ms values).2.1) ∧
    (∀ s1 s2 t, dpydStars values ms = s1 :: s2 :: t →
      (dpyd_from_markers recs ms values).1 = s1 ++ "/" ++ s2 ∧
      (dpyd_from_diplotype recs s1 s2).2.1 = (dpyd_from_markers recs ms values).2.1) := by
  have hmem : ∀ s, s ∈ dpydStars values ms → s ≠ "*1" := by
    intro s hs
    rw [dpydStars_eq_occurrences] at hs
    obtain ⟨m, hm, rfl⟩ := mem_dpydOccurrences hs
    exact hstar m hm
  refine ⟨?_, ?_, ?_⟩
  · intro h
    constructor
    · simp [dpyd_from_markers, h]
    · simp [dpyd_from_markers, dpyd_from_diplotype, h]
  · intro s h
    have hs : s ≠ "*1" := hmem s (by rw [h]; exact List.mem_singleton_self s)
    constructor
    · simp [dpyd_from_markers, h]
    · simp [dpyd_from_markers, dpyd_from_diplotype, h, hs]
  · intro s1 s2 t h
    have hs1 : s1 ≠ "*1" := hmem s1 (by rw [h]; exact List.mem_cons_self _ _)
    have hs2 : s2 ≠ "*1" := hmem s2 (by rw [h]; exact List.mem_cons_of_mem _ (List.mem_cons_self _ _))
    constructor
    · simp [dpyd_from_markers, h]
    · simp [dpyd_from_markers, dpyd_from_diplotype, h, hs1, hs2]

/-- Witness for C6: one homozygous DPYD marker gives two events, diplotype
`*2A/*2A` and the lento phenotype in both modes. -/
theorem dpyd_round_trip_witness :
    (dpyd_from_markers [] [⟨"c", "rs1", "A", "T", "*2A", []⟩] [("c", "T/T")]).1 =
      "*2A" ++ "/" ++ "*2A" ∧
    (dpyd_from_diplotype [] "*2A" "*2A").2.1 =
      (dpyd_from_markers [] [⟨"c", "rs1", "A", "T", "*2A", []⟩] [("c", "T/T")]).2.1 :=
  (dpyd_round_trip [] [⟨"c", "rs1", "A", "T", "*2A", []⟩] [("c", "T/T")]
    (by decide)).2.2 "*2A" "*2A" [] (by decide)

/-! ## Recommendation resolver and UGT1A1 -/

/-- C3: `rtext_short` never returns the empty string for any gene, phenotype
and long text (including an absent one): it returns the fixed short entry on
a (gene, lower-cased phenotype) table hit, otherwise the cleaned long text,
and the fixed safe-fallback sentence when the cleaned text is empty. -/
theorem rtext_short_spec (g p : String) (longText : Option String) :
    rtext_short g p longText ≠ "" ∧
    (∀ e, SHORT_REC.find? (fun r => r.1.1 == g && r.1.2 == pyLower p) = some e →
      rtext_short g p longText = e.2) ∧
    (SHORT_REC.find? (fun r => r.1.1 == g && r.1.2 == pyLower p) = none →
      rtext_short g p longText =
        if cleanText (longText.getD "") = "" then SAFE_FALLBACK
        else cleanText (longText.getD "")) := by
  have hvals : ∀ e ∈ SHORT_REC, e.2 ≠ "" := by decide
  cases hf : SHORT_REC.find? (fun r => r.1.1 == g && r.1.2 == pyLower p) with
  | some e =>
    refine ⟨?_, ?_, ?_⟩
    · simp only [rtext_short, hf]
      exact hvals e (List.mem_of_find?_eq_some hf)
    · intro e2 he2
      obtain rfl : e = e2 := Option.some_inj.mp he2
      simp [rtext_short, hf]
    · intro hn
      exact Option.noConfusion hn
  | none =>
    refine ⟨?_, ?_, ?_⟩
    · simp only [rtext_short, hf]
      split_ifs with ht
      · decide
      · exact ht
    · intro e2 he2
      exact Option.noConfusion he2
    · intro _
      simp [rtext_short, hf]

/-- Witness for C3: a table hit returns the fixed DPYD-normal entry, and an
unknown (gene, phenotype) with no long text returns the safe fallback. -/
theorem rtext_short_spec_witness :
    rtext_short "DPYD" "Metabolizador normal" none = "Dosis estándar según ficha técnica." ∧
    rtext_short "ZZZ" "x" none = SAFE_FALLBACK := by
  constructor
  · exact (rtext_short_spec "DPYD" "Metabolizador normal" none).2.1
      (("DPYD", "metabolizador normal"), "Dosis estándar según ficha técnica.") (by decide)
  · rw [(rtext_short_spec "ZZZ" "x" none).2.2 (by decide)]
    decide

theorem sortedPair_symm (a b : String) : sortedPair a b = sortedPair b a := by
  unfold sortedPair
  rcases pyLt_trichot a b with h | h | h
  · rw [if_neg (by simp [pyLt_asymm h]), if_pos h]
  · rw [if_pos h, if_neg (by simp [pyLt_asymm h])]
  · subst h; rfl

/-- C5: `ugt1a1_from_diplotype` is symmetric in its two alleles — same
phenotype (counting decreased-function alleles among `*28`, `*80`, `*6`,
`*37`: zero normal, one intermediate, two poor/lento) and same diplotype
string, the two alleles joined with `/` in lexically sorted order; in
particular both (`*1`, `*28`) and (`*28`, `*1`) yield `*1/*28`. -/
theorem ugt1a1_from_diplotype_symm (recs : List RecRow) (a1 a2 : String) :
    (ugt1a1_from_diplotype recs a1 a2).2.1 = (ugt1a1_from_diplotype recs a2 a1).2.1 ∧
    (ugt1a1_from_diplotype recs a1 a2).1 = (ugt1a1_from_diplotype recs a2 a1).1 ∧
    (ugt1a1_from_diplotype recs a1 a2).1 = String.intercalate "/" (sortedPair a1 a2) ∧
    (ugt1a1_from_diplotype recs a1 a2).2.1 =
      (if ((if a1 ∈ UGT_DECREASED then 1 else 0) +
           (if a2 ∈ UGT_DECREASED then 1 else 0) : Nat) = 0 then "Metabolizador normal"
       else if ((if a1 ∈ UGT_DECREASED then 1 else 0) +
           (if a2 ∈ UGT_DECREASED then 1 else 0) : Nat) = 1 then "Metabolizador intermedio"
       else "Metabolizador lento") ∧
    (ugt1a1_from_diplotype recs "*1" "*28").1 = "*1/*28" ∧
    (ugt1a1_from_diplotype recs "*28" "*1").1 = "*1/*28" := by
  refine ⟨?_, ?_, ?_, ?_, ?_, ?_⟩
  · simp only [ugt1a1_from_diplotype]
    rw [Nat.add_comm (if a1 ∈ UGT_DECREASED then 1 else 0)
      (if a2 ∈ UGT_DECREASED then 1 else 0)]
  · simp only [ugt1a1_from_diplotype]
    rw [sortedPair_symm]
  · simp only [ugt1a1_from_diplotype]
  · simp only [ugt1a1_from_diplotype]
  · simp only [ugt1a1_from_diplotype]
    decide
  · simp only [ugt1a1_from_diplotype]
    decide

/-- C7: UGT1A1 marker mode maps `C/C` to `*1/*1` (normal), `C/T` and `T/C`
to `*1/*28` (intermediate), `T/T` to `*28/*28` (lento), and every other
genotype to the pass-through diplotype with the `Indeterminado` phenotype,
whose recommendation resolves to the generic safe fallback whenever no
UGT1A1 recommendation row matches it. -/
theorem ugt1a1_from_markers_spec (recs : List RecRow) (geno : String) :
    ((ugt1a1_from_markers recs "C/C").1 = "*1/*1" ∧
      (ugt1a1_from_markers recs "C/C").2.1 = "Metabolizador normal") ∧
    ((ugt1a1_from_markers recs "C/T").1 = "*1/*28" ∧
      (ugt1a1_from_markers recs "C/T").2.1 = "Metabolizador intermedio") ∧
    ((ugt1a1_from_markers recs "T/C").1 = "*1/*28" ∧
      (ugt1a1_from_markers recs "T/C").2.1 = "Metabolizador intermedio") ∧
    ((ugt1a1_from_markers recs "T/T").1 = "*28/*28" ∧
      (ugt1a1_from_markers recs "T/T").2.1 = "Metabolizador lento") ∧
    (geno ≠ "C/C" → geno ≠ "C/T" → geno ≠ "T/C" → geno ≠ "T/T" →
      (ugt1a1_from_markers recs geno).1 = "-/-" ∧
      (ugt1a1_from_markers recs geno).2.1 = "Indeterminado" ∧
      (ugtRecRow recs "Indeterminado" = none →
        (ugt1a1_from_markers recs geno).2.2.1 = SAFE_FALLBACK)) := by
  refine ⟨?_, ?_, ?_, ?_, ?_⟩
  · constructor <;> simp [ugt1a1_from_markers]
  · constructor <;> simp [ugt1a1_from_markers]
  · constructor <;> simp [ugt1a1_from_markers]
  · constructor <;> simp [ugt1a1_from_markers]
  · intro h1 h2 h3 h4
    refine ⟨?_, ?_, ?_⟩
    · simp [ugt1a1_from_markers, h1, h2, h3, h4]
    · simp [ugt1a1_from_markers, h1, h2, h3, h4]
    · intro hrec
      simp [ugt1a1_from_markers, h1, h2, h3, h4, hrec]
      decide

/-! ## CYP2D6 -/

/-- Witness for C7: an unrecognized genotype gives the pass-through
diplotype, the indeterminate phenotype and, with an empty recommendation
table, the safe fallback text. -/
theorem ugt1a1_from_markers_spec_witness :
    (ugt1a1_from_markers [] "X/Y").1 = "-/-" ∧
    (ugt1a1_from_markers [] "X/Y").2.1 = "Indeterminado" ∧
    (ugt1a1_from_markers [] "X/Y").2.2.1 = SAFE_FALLBACK := by
  obtain ⟨h1, h2, h3⟩ := (ugt1a1_from_markers_spec [] "X/Y").2.2.2.2
    (by decide) (by decide) (by decide) (by decide)
  exact ⟨h1, h2, h3 rfl⟩

/-- C2: `_cyp_lookup_pheno` first performs an exact, order-sensitive lookup
in the CYP2D6 diplotype table and returns the table phenotype on a hit;
otherwise it sums per-allele activity scores (0 for the nine no-function
alleles, 0.5 for the five reduced-function alleles, 1.0 for anything else
including `*1` and unknown labels; quarter units here) and buckets the
total: 0 poor, at most 1.0 intermediate, at most 2.25 normal, above that
ultrarapid; with no table row, `*4/*4` resolves to Poor and `*1/*1` to
Normal. -/
theorem cyp_lookup_pheno_spec :
    (∀ (tbl : List CypRow) (dipl : String) (row : CypRow),
      tbl.find? (fun r => r.diplotype == dipl) = some row →
      cyp_lookup_pheno tbl dipl = some row.summary) ∧
    (∀ (tbl : List CypRow) (a1 a2 : String),
      pySplitSlash (a1 ++ "/" ++ a2) = [a1, a2] →
      tbl.find? (fun r => r.diplotype == a1 ++ "/" ++ a2) = none →
      cyp_lookup_pheno tbl (a1 ++ "/" ++ a2) =
        some (claimBucket (claimScore a1 + claimScore a2))) ∧
    cyp_lookup_pheno [] "*4/*4" = some "Poor Metabolizer" ∧
    cyp_lookup_pheno [] "*1/*1" = some "Normal Metabolizer" := by
  refine ⟨?_, ?_, by decide, by decide⟩
  · intro tbl dipl row h
    simp [cyp_lookup_pheno, h]
  · intro tbl a1 a2 hsplit hmiss
    have hsc : ∀ a, ascoreQ a = claimScore a := fun a => rfl
    simp [cyp_lookup_pheno, hmiss, hsplit, claimBucket, hsc]

/-- Witness for C2: a table hit returns the stored summary, and the fallback
on `*10/*4` scores 0.5 + 0 and lands in the intermediate bucket. -/
theorem cyp_lookup_pheno_spec_witness :
    cyp_lookup_pheno [⟨"*1/*4", "Intermediate Metabolizer"⟩] "*1/*4" =
      some "Intermediate Metabolizer" ∧
    cyp_lookup_pheno [] ("*10" ++ "/" ++ "*4") =
      some (claimBucket (claimScore "*10" + claimScore "*4")) := by
  constructor
  · exact cyp_lookup_pheno_spec.1 [⟨"*1/*4", "Intermediate Metabolizer"⟩] "*1/*4"
      ⟨"*1/*4", "Intermediate Metabolizer"⟩ (by decide)
  · exact cyp_lookup_pheno_spec.2.1 [] "*10" "*4" (by decide) (by decide)

theorem ascoreQ_le (a : String) : ascoreQ a ≤ 4 := by
  unfold ascoreQ
  split_ifs <;> omega

/-- C10: for every diplotype with no exact row in the CYP2D6 table, the
activity-score fallback of `_cyp_lookup_pheno` never returns the ultrarapid
phenotype: each allele scores at most 1.0, so the total is at most 2.0 and
never exceeds the 2.25 threshold — ultrarapid can only come from a table
hit. -/
theorem cyp_fallback_no_ultra (tbl : List CypRow) (dipl : String)
    (hmiss : tbl.find? (fun r => r.diplotype == dipl) = none) :
    cyp_lookup_pheno tbl dipl ≠ some "Ultrarapid Metabolizer" := by
  simp only [cyp_lookup_pheno, hmiss]
  cases hsp : pySplitSlash dipl with
  | nil => simp
  | cons a t =>
    cases t with
    | nil => simp
    | cons b t2 =>
      cases t2 with
      | nil =>
        have h1 := ascoreQ_le a
        have h2 := ascoreQ_le b
        simp only [ne_eq, Option.some.injEq]
        split_ifs with hz hi hn
        · decide
        · decide
        · decide
        · omega
      | cons c t3 => simp

/-- Witness for C10 at the empty table and the wild-type diplotype. -/
theorem cyp_fallback_no_ultra_witness :
    cyp_lookup_pheno [] "*1/*1" ≠ some "Ultrarapid Metabolizer" :=
  cyp_fallback_no_ultra [] "*1/*1" (by decide)

/-- C4 (failing input): a CYP2D6 marker row with an empty star field makes
`cyp2d6_from_markers` raise `IndexError` (modelled as `none`): the source
computes `str(m["star"]).split()[0]` before its own skip guard can run.  A
`"-"` star field, by contrast, is skipped and the call succeeds, so the
crash is specific to empty and whitespace-only star tokens and the
classification core is not exception-free. -/
theorem cyp2d6_from_markers_empty_star_raises :
    cyp2d6_from_markers [] [] [⟨"c", "rs1", "A", "T", "", []⟩] [] = none ∧
    (cyp2d6_from_markers [] [] [⟨"c", "rs1", "A", "T", "-", []⟩] []).isSome = true := by
  constructor
  · decide
  · decide
